import Mathlib

/-!
Shallow embedding of src/zone-transfer.py.

The script resolves a domain's NS servers, probes them with four zone
transfer strategies (dnspython AXFR, nslookup, dig, nmap) in a fixed order,
fetches ASN descriptions for each resolved server, and renders two tables.
Network and subprocess effects are modelled by outcome types; each Python
function becomes a pure Lean function from the outcomes of the effects it
performs to its return value.
-/

/-- A displayable transfer record: either a structured (owner, rtype, value)
triple produced by the dnspython strategy, or a raw stdout line produced by
one of the external-tool strategies. -/
inductive TransferRecord where
  | structured (owner rtype value : String)
  | raw (line : String)
deriving DecidableEq

/-- Result of a completed `subprocess.run` call with `capture_output=True`:
captured stdout, captured stderr and the exit code. -/
structure CompletedProcess where
  stdout : String
  stderr : String
  returncode : Int
deriving DecidableEq

/-- Outcome of attempting a subprocess invocation: the process completed, or
the invocation itself raised (tool missing, OS error, ...), which the
strategy's `except Exception` clause catches. -/
inductive SubprocOutcome where
  | completed (r : CompletedProcess)
  | raised (msg : String)
deriving DecidableEq

/-- Boolean test that `small` is a character-prefix of `big`, structurally on
character lists. -/
def charsStartWith : List Char → List Char → Bool
  | [], _ => true
  | _ :: _, [] => false
  | a :: as, b :: bs => a == b && charsStartWith as bs

/-- Boolean substring test over character lists, structural on the haystack. -/
def charsContains : List Char → List Char → Bool
  | [], needle => needle.isEmpty
  | h :: t, needle => charsStartWith needle (h :: t) || charsContains t needle

/-- Python's `needle in hay` substring test on strings. -/
def strContains (hay needle : String) : Bool :=
  charsContains hay.data needle.data

/-- Helper for `splitlines`: walks the remaining characters carrying the
current line (reversed); a final line is emitted only if non-empty, matching
Python's `str.splitlines`. -/
def splitlinesAux : List Char → List Char → List String
  | [], acc => if acc.isEmpty then [] else [String.mk acc.reverse]
  | c :: rest, acc =>
    if c == '\n' then String.mk acc.reverse :: splitlinesAux rest []
    else splitlinesAux rest (c :: acc)

/-- Python's `str.splitlines` restricted to the newline separator: an empty
string yields no lines, and a trailing newline yields no trailing empty
line. -/
def splitlines (s : String) : List String :=
  splitlinesAux s.data []

/-- Zone data as iterated by `zone_transfer_dnspython`: for each name, the
rdatasets, each an rdatatype text together with its rdata texts. -/
structure XfrZone where
  nodes : List (String × List (String × List String))
deriving DecidableEq

/-- The exceptions `zone_transfer_dnspython` catches from
`dns.zone.from_xfr(dns.query.xfr(server, domain))`. -/
inductive XfrError where
  | transferError
  | connectionReset
  | formError
  | badResponse
  | unexpectedSource
  | timeout
  | valueError
deriving DecidableEq

/-- Outcome of the AXFR call made by `zone_transfer_dnspython`: either a zone
was obtained or one of the caught exceptions was raised. -/
inductive XfrOutcome where
  | ok (z : XfrZone)
  | err (e : XfrError)
deriving DecidableEq

/-- The record list `zone_transfer_dnspython` builds from a zone: one
structured triple per (name, rdatatype, rdata), in iteration order. -/
def zoneRecords (z : XfrZone) : List TransferRecord :=
  z.nodes.flatMap fun node =>
    node.2.flatMap fun rdataset =>
      rdataset.2.map fun rdata => TransferRecord.structured node.1 rdataset.1 rdata

/-- Embedding of `zone_transfer_dnspython` (src, lines 17-31) as a function of
the AXFR outcome: on a zone, returns all (name, type, value) triples; each
caught exception prints a diagnostic and returns None. -/
def zone_transfer_dnspython : XfrOutcome → Option (List TransferRecord)
  | .ok z => some (zoneRecords z)
  | .err _ => none

/-- Embedding of `zone_transfer_nslookup` (src, lines 33-43) as a function of
the `subprocess.run(["nslookup", ...])` outcome: a raised invocation is
caught and yields None; a completed process with the marker in stderr or a
non-zero exit code yields None; otherwise the stdout lines are the records,
with an empty line list collapsed to None by `records if records else None`. -/
def zone_transfer_nslookup (r : SubprocOutcome) : Option (List TransferRecord) :=
  match r with
  | .raised _ => none
  | .completed p =>
    if strContains p.stderr "transfer failed" || p.returncode != 0 then none
    else
      match (splitlines p.stdout).map TransferRecord.raw with
      | [] => none
      | rec :: recs => some (rec :: recs)

/-- Embedding of `zone_transfer_dig` (src, lines 45-55), same shape as
`zone_transfer_nslookup` with marker string "Transfer failed". -/
def zone_transfer_dig (r : SubprocOutcome) : Option (List TransferRecord) :=
  match r with
  | .raised _ => none
  | .completed p =>
    if strContains p.stderr "Transfer failed" || p.returncode != 0 then none
    else
      match (splitlines p.stdout).map TransferRecord.raw with
      | [] => none
      | rec :: recs => some (rec :: recs)

/-- Embedding of `zone_transfer_nmap` (src, lines 57-67), same shape as
`zone_transfer_dig` with the same marker string "Transfer failed". -/
def zone_transfer_nmap (r : SubprocOutcome) : Option (List TransferRecord) :=
  match r with
  | .raised _ => none
  | .completed p =>
    if strContains p.stderr "Transfer failed" || p.returncode != 0 then none
    else
      match (splitlines p.stdout).map TransferRecord.raw with
      | [] => none
      | rec :: recs => some (rec :: recs)

/-- Outcome of the `requests.get` / `response.json()` pair inside
`fetch_asn_description`: the GET raised a network error, the body failed to
parse as JSON, or a JSON object (modelled as an association list of string
fields) was obtained. -/
inductive HttpOutcome where
  | networkError (msg : String)
  | malformedJson
  | json (fields : List (String × String))
deriving DecidableEq

/-- Embedding of `fetch_asn_description` (src, lines 69-76): any caught error
yields the fixed placeholder, otherwise `data.get("org", placeholder)`. -/
def fetch_asn_description : HttpOutcome → String
  | .networkError _ => "ASN description not available"
  | .malformedJson => "ASN description not available"
  | .json fields =>
    match fields.find? (fun p => p.1 == "org") with
    | some p => p.2
    | none => "ASN description not available"

/-- Outcome of `dns.resolver.resolve(ns_name, "A")` inside
`resolve_ns_to_ip`: a non-empty answer list (first answer distinguished), one
of the three caught exceptions, or some other exception that the function
does not catch. -/
inductive ResolveOutcome where
  | answers (first : String) (rest : List String)
  | noAnswer
  | nxdomain
  | timeout
  | failure (msg : String)
deriving DecidableEq

/-- Embedding of `resolve_ns_to_ip` (src, lines 10-15): returns the first A
answer, None on NoAnswer / NXDOMAIN / Timeout, and lets any other exception
propagate (the `Except.error` case). -/
def resolve_ns_to_ip : ResolveOutcome → Except String (Option String)
  | .answers first _ => .ok (some first)
  | .noAnswer => .ok none
  | .nxdomain => .ok none
  | .timeout => .ok none
  | .failure m => .error m

/-- Outcome of `dns.resolver.resolve(domain, "NS")` inside
`fetch_ns_records`: the NS target names, or a raised exception. -/
inductive NsOutcome where
  | ok (targets : List String)
  | failure (msg : String)
deriving DecidableEq

/-- Embedding of `fetch_ns_records` (src, lines 78-84): catches every
exception and returns the empty list. `main` never calls this function; its
top-level NS resolution is the unguarded call modelled in `main_run`. -/
def fetch_ns_records : NsOutcome → List String
  | .ok ts => ts
  | .failure _ => []

/-- The four transfer strategies, in the fixed order `main` tries them. -/
inductive Strategy where
  | dnspython
  | nslookup
  | dig
  | nmap
deriving DecidableEq

/-- Environment of one run of `main` for a fixed domain: the outcome of the
top-level NS resolution, and, per server address, the outcomes of each
strategy's effect and of the ASN HTTP lookup. -/
structure Env where
  nsResolve : Except String (List String)
  resolveA : String → ResolveOutcome
  xfrOutcome : String → XfrOutcome
  nslookupRun : String → SubprocOutcome
  digRun : String → SubprocOutcome
  nmapRun : String → SubprocOutcome
  http : String → HttpOutcome

/-- The value a given strategy returns when `main` invokes it on a server. -/
def outcomeOf (env : Env) (server : String) : Strategy → Option (List TransferRecord)
  | .dnspython => zone_transfer_dnspython (env.xfrOutcome server)
  | .nslookup => zone_transfer_nslookup (env.nslookupRun server)
  | .dig => zone_transfer_dig (env.digRun server)
  | .nmap => zone_transfer_nmap (env.nmapRun server)

/-- The string `main` appends to `all_records` when a strategy returns None. -/
def failureNote : TransferRecord :=
  TransferRecord.raw "No threats were found. Please try again."

/-- Mutable state of the probing loop in `main`: `all_records`, `successful`,
plus an instrumentation log of every (server, strategy) invocation made. -/
structure ProbeState where
  allRecords : List TransferRecord
  successful : Bool
  probes : List (String × Strategy)
deriving DecidableEq

/-- Result of one strategy block inside the server loop: `broke` if the block
executed `break` (record list truthy, or None), `fell` if it fell through to
the next strategy (empty record list). -/
inductive StepResult where
  | broke (st : ProbeState)
  | fell (st : ProbeState)
deriving DecidableEq

/-- One strategy block of `main`'s server loop (e.g. src, lines 108-117): the
strategy is invoked (logged in `probes`); a non-empty list sets `successful`,
extends `all_records` and breaks; None appends `failureNote` and breaks; an
empty list falls through. -/
def runStrategy (st : ProbeState) (server : String) (strat : Strategy)
    (outcome : Option (List TransferRecord)) : StepResult :=
  match outcome with
  | some (rec :: recs) =>
    .broke ⟨st.allRecords ++ (rec :: recs), true, st.probes ++ [(server, strat)]⟩
  | some [] =>
    .fell ⟨st.allRecords, st.successful, st.probes ++ [(server, strat)]⟩
  | none =>
    .broke ⟨st.allRecords ++ [failureNote], st.successful, st.probes ++ [(server, strat)]⟩

/-- The body of `main`'s per-server loop (src, lines 105-150): the four
strategies in order, each run only if every earlier one fell through. -/
def probeServer (env : Env) (st : ProbeState) (server : String) : StepResult :=
  match runStrategy st server .dnspython (outcomeOf env server .dnspython) with
  | .broke st1 => .broke st1
  | .fell st1 =>
    match runStrategy st1 server .nslookup (outcomeOf env server .nslookup) with
    | .broke st2 => .broke st2
    | .fell st2 =>
      match runStrategy st2 server .dig (outcomeOf env server .dig) with
      | .broke st3 => .broke st3
      | .fell st3 =>
        match runStrategy st3 server .nmap (outcomeOf env server .nmap) with
        | .broke st4 => .broke st4
        | .fell st4 => .fell st4

/-- The server loop of `main` (src, lines 101-150): servers with no resolved
address are skipped; a `broke` result from any strategy block ends the whole
loop; a fall-through moves to the next server. -/
def probeLoop (env : Env) (st : ProbeState) : List (Option String) → ProbeState
  | [] => st
  | none :: rest => probeLoop env st rest
  | some server :: rest =>
    match probeServer env st server with
    | .broke st1 => st1
    | .fell st1 => probeLoop env st1 rest

/-- The list comprehension `[resolve_ns_to_ip(str(ns.target)) for ns in
ns_records]` (src, line 96): evaluated left to right, the first uncaught
exception propagating. -/
def mapResolve (resolveA : String → ResolveOutcome) : List String → Except String (List (Option String))
  | [] => .ok []
  | n :: rest =>
    match resolve_ns_to_ip (resolveA n) with
    | .error e => .error e
    | .ok a =>
      match mapResolve resolveA rest with
      | .error e => .error e
      | .ok tail => .ok (a :: tail)

/-- The ASN information table of `main` (src, lines 156-159): one row per
truthy entry of `ns_servers` (a Python `Optional[str]` is truthy when it is a
non-empty string), pairing the address with its fetched ASN description. -/
def asnTable (env : Env) (servers : List (Option String)) : List (String × String) :=
  servers.filterMap fun sv =>
    match sv with
    | none => none
    | some s => if s = "" then none else some (s, fetch_asn_description (env.http s))

/-- Observable outcome of a completed run of `main`: the `successful` flag,
`all_records`, the invocation log, the ASN table rows, and the result table's
header and rows. -/
structure MainResult where
  successful : Bool
  allRecords : List TransferRecord
  probes : List (String × Strategy)
  asnRows : List (String × String)
  resultHeader : String
  resultRows : List TransferRecord
deriving DecidableEq

/-- The reporting tail of `main` (src, lines 152-175) applied to the resolved
servers: probe, build the ASN table, and build the result table, whose rows
are `all_records` on success and the single fixed failure row otherwise. -/
def runResult (env : Env) (servers : List (Option String)) : MainResult :=
  let st := probeLoop env ⟨[], false, []⟩ servers
  if st.successful then
    ⟨true, st.allRecords, st.probes, asnTable env servers,
      "Threat successfully found", st.allRecords⟩
  else
    ⟨false, st.allRecords, st.probes, asnTable env servers,
      "No threats were found. Please try again.", [TransferRecord.raw "Transfer failed."]⟩

/-- Embedding of `main` (src, lines 86-175): the top-level NS resolution
(src, line 95) and the per-server address resolution (src, line 96) are not
guarded, so their errors propagate; otherwise the run completes with a
`MainResult`. -/
def main_run (env : Env) : Except String MainResult :=
  match env.nsResolve with
  | .error e => .error e
  | .ok nsNames =>
    match mapResolve env.resolveA nsNames with
    | .error e => .error e
    | .ok servers => .ok (runResult env servers)

/-- A strategy outcome is conclusive when `main`'s strategy block breaks on
it: a non-empty record list (data) or None (definitive failure). -/
def conclusive : Option (List TransferRecord) → Bool
  | none => true
  | some [] => false
  | some (_ :: _) => true

/-- Concrete environment: the top-level NS resolution raises. -/
def envFail : Env :=
  ⟨.error "The DNS query name does not exist", fun _ => .noAnswer, fun _ => .err .timeout,
    fun _ => .raised "nslookup missing", fun _ => .raised "dig missing",
    fun _ => .raised "nmap missing", fun _ => .networkError "down"⟩

/-- Concrete environment: one NS server, its address resolves, the dnspython
strategy returns an empty zone (empty record list) and the nslookup strategy
completes with empty output and exit code 0, hence returns None. -/
def envInconclusive : Env :=
  ⟨.ok ["ns1.example."], fun _ => .answers "9.9.9.9" [], fun _ => .ok ⟨[]⟩,
    fun _ => .completed ⟨"", "", 0⟩, fun _ => .completed ⟨"", "", 0⟩,
    fun _ => .completed ⟨"", "", 0⟩, fun _ => .malformedJson⟩

/-- Concrete environment: one NS server whose address resolution yields
NXDOMAIN, so the resolved server list is `[none]`. -/
def envNoResolve : Env :=
  ⟨.ok ["ns1.example."], fun _ => .nxdomain, fun _ => .err .timeout,
    fun _ => .raised "nslookup missing", fun _ => .raised "dig missing",
    fun _ => .raised "nmap missing", fun _ => .networkError "down"⟩

/-- Concrete environment: one NS server resolving to 5.6.7.8, whose AXFR
yields a zone with the single record (example.com., A, 1.2.3.4). -/
def envSuccess : Env :=
  ⟨.ok ["ns1.example."], fun _ => .answers "5.6.7.8" [],
    fun _ => .ok ⟨[("example.com.", [("A", ["1.2.3.4"])])]⟩,
    fun _ => .raised "nslookup missing", fun _ => .raised "dig missing",
    fun _ => .raised "nmap missing", fun _ => .json [("org", "AS64500 Example")]⟩

/-- Concrete environment: three NS servers resolving to three distinct
addresses, with all transfer strategies failing. -/
def envResolved3 : Env :=
  ⟨.ok ["a.example.", "b.example.", "c.example."],
    fun n => if n = "a.example." then .answers "1.1.1.1" []
      else if n = "b.example." then .answers "2.2.2.2" []
      else .answers "3.3.3.3" [],
    fun _ => .err .timeout, fun _ => .raised "nslookup missing",
    fun _ => .raised "dig missing", fun _ => .raised "nmap missing",
    fun _ => .json [("org", "AS64501 Example Net")]⟩

/-- The nslookup strategy always produces a conclusive outcome: None, or a
non-empty record list (it collapses an empty line list to None). -/
theorem nslookup_conclusive (r : SubprocOutcome) :
    conclusive (zone_transfer_nslookup r) = true := by
  cases r with
  | raised m => rfl
  | completed p =>
    simp only [zone_transfer_nslookup]
    split
    · rfl
    · split
      · rfl
      · rfl

/-- A conclusive outcome is None or a non-empty list. -/
theorem conclusive_shapes (x : Option (List TransferRecord)) (h : conclusive x = true) :
    x = none ∨ ∃ rec recs, x = some (rec :: recs) := by
  match x with
  | none => exact Or.inl rfl
  | some [] => simp [conclusive] at h
  | some (a :: b) => exact Or.inr ⟨a, b, rfl⟩

/-- Case analysis of one server's probe: either the dnspython outcome was
conclusive and the loop broke after that single invocation, or it was
inconclusive and the loop broke after additionally invoking nslookup (whose
outcome is always conclusive); the strategy blocks for dig and nmap are never
reached. -/
theorem probeServer_spec (env : Env) (st : ProbeState) (s : String) :
    (conclusive (outcomeOf env s .dnspython) = true ∧
      ∃ st1, probeServer env st s = .broke st1 ∧
        st1.probes = st.probes ++ [(s, .dnspython)]) ∨
    (conclusive (outcomeOf env s .dnspython) = false ∧
      conclusive (outcomeOf env s .nslookup) = true ∧
      ∃ st1, probeServer env st s = .broke st1 ∧
        st1.probes = st.probes ++ [(s, .dnspython), (s, .nslookup)]) := by
  rcases h1 : outcomeOf env s .dnspython with _ | (_ | ⟨rec, recs⟩)
  · refine Or.inl ⟨by simp [conclusive],
      ⟨st.allRecords ++ [failureNote], st.successful, st.probes ++ [(s, .dnspython)]⟩,
      ?_, rfl⟩
    simp [probeServer, runStrategy, h1]
  · have h2 := nslookup_conclusive (env.nslookupRun s)
    have h2o : conclusive (outcomeOf env s .nslookup) = true := h2
    refine Or.inr ⟨by simp [conclusive], h2o, ?_⟩
    rcases conclusive_shapes _ h2 with h3 | ⟨rec, recs, h3⟩
    · have h3o : outcomeOf env s .nslookup = none := h3
      refine ⟨⟨st.allRecords ++ [failureNote], st.successful,
        st.probes ++ [(s, .dnspython), (s, .nslookup)]⟩, ?_, rfl⟩
      simp [probeServer, runStrategy, h1, h3o]
    · have h3o : outcomeOf env s .nslookup = some (rec :: recs) := h3
      refine ⟨⟨st.allRecords ++ (rec :: recs), true,
        st.probes ++ [(s, .dnspython), (s, .nslookup)]⟩, ?_, rfl⟩
      simp [probeServer, runStrategy, h1, h3o]
  · refine Or.inl ⟨by simp [conclusive],
      ⟨st.allRecords ++ (rec :: recs), true, st.probes ++ [(s, .dnspython)]⟩,
      ?_, rfl⟩
    simp [probeServer, runStrategy, h1]

/-- Probing a server always ends with a `break`: the loop body never falls
through all four strategies. -/
theorem probeServer_isBroke (env : Env) (st : ProbeState) (s : String) :
    ∃ st1, probeServer env st s = .broke st1 := by
  rcases probeServer_spec env st s with ⟨_, st1, h, _⟩ | ⟨_, _, st1, h, _⟩
  · exact ⟨st1, h⟩
  · exact ⟨st1, h⟩

/-- The server loop leaves the state unchanged on a list of unresolved
servers. -/
theorem probeLoop_all_none (env : Env) (st : ProbeState) :
    ∀ l : List (Option String), (∀ x ∈ l, x = none) → probeLoop env st l = st := by
  intro l
  induction l with
  | nil => intro _; rfl
  | cons a t ih =>
    intro h
    have ha := h a (List.mem_cons_self a t)
    subst ha
    exact ih fun x hx => h x (List.mem_cons_of_mem _ hx)

/-- Unresolved servers at the front of the list are skipped. -/
theorem probeLoop_skip_pre (env : Env) (st : ProbeState)
    (pre l : List (Option String)) (h : ∀ x ∈ pre, x = none) :
    probeLoop env st (pre ++ l) = probeLoop env st l := by
  induction pre with
  | nil => rfl
  | cons a t ih =>
    have ha := h a (List.mem_cons_self a t)
    subst ha
    exact ih fun x hx => h x (List.mem_cons_of_mem _ hx)

/-- The server loop either never probes (state unchanged) or ends at the
first resolved server, whose probe breaks. -/
theorem probeLoop_shape (env : Env) (st : ProbeState) (l : List (Option String)) :
    probeLoop env st l = st ∨
    ∃ s st1, probeServer env st s = .broke st1 ∧ probeLoop env st l = st1 := by
  induction l with
  | nil => exact Or.inl rfl
  | cons a t ih =>
    cases a with
    | none => exact ih
    | some s =>
      obtain ⟨st1, h⟩ := probeServer_isBroke env st s
      exact Or.inr ⟨s, st1, h, by simp [probeLoop, h]⟩

/-- The ASN table of a completed run is independent of the probing outcome:
both branches of the reporter carry the same `asnTable`. -/
theorem runResult_asnRows (env : Env) (servers : List (Option String)) :
    (runResult env servers).asnRows = asnTable env servers := by
  simp only [runResult]
  split <;> rfl

/-- When every resolved address is a non-empty string, the ASN table has
exactly one row per non-absent address. -/
theorem asnTable_length (env : Env) :
    ∀ servers : List (Option String), (∀ a : String, some a ∈ servers → a ≠ "") →
    (asnTable env servers).length = servers.countP Option.isSome := by
  intro servers
  induction servers with
  | nil => intro _; rfl
  | cons a t ih =>
    intro h
    have ht := ih fun x hx => h x (List.mem_cons_of_mem _ hx)
    cases a with
    | none =>
      simp [asnTable, List.countP_cons] at ht ⊢
      exact ht
    | some s =>
      have hs := h s (List.mem_cons_self _ _)
      simp [asnTable, List.countP_cons, hs] at ht ⊢
      exact ht

/-- C1: in the orchestrator's probing loop, every strategy invocation except
possibly the last one had an inconclusive outcome (an empty record list);
equivalently, the first server/strategy invocation whose outcome is data (a
non-empty record list) or definitive failure (None) is the last invocation of
the entire loop, for every list of resolved server addresses and every
assignment of strategy outcomes — no later strategy on that server and no
subsequent server is ever probed. -/
theorem C1_first_conclusive_outcome_ends_probing (env : Env)
    (servers : List (Option String)) :
    ∀ p ∈ ((probeLoop env ⟨[], false, []⟩ servers).probes).dropLast,
      conclusive (outcomeOf env p.1 p.2) = false := by
  rcases probeLoop_shape env ⟨[], false, []⟩ servers with h | ⟨s, st1, hb, hf⟩
  · rw [h]
    intro p hp
    simp at hp
  · rw [hf]
    rcases probeServer_spec env ⟨[], false, []⟩ s with
      ⟨hc, st2, hb2, hp2⟩ | ⟨hc1, hc2, st2, hb2, hp2⟩
    · injection (hb.symm.trans hb2) with e
      subst e
      simp only [List.nil_append] at hp2
      rw [hp2]
      intro p hp
      simp at hp
    · injection (hb.symm.trans hb2) with e
      subst e
      simp only [List.nil_append] at hp2
      rw [hp2]
      intro p hp
      have hd : ([(s, Strategy.dnspython), (s, Strategy.nslookup)]).dropLast
          = [(s, Strategy.dnspython)] := rfl
      rw [hd] at hp
      simp at hp
      rw [hp]
      exact hc1

/-- C2: the nslookup strategy never returns an empty list (its result is None
or a non-empty list), and consequently the dig and nmap strategies are
unreachable from the orchestrator: no invocation of either ever appears in
the probe log, for any environment. -/
theorem C2_dig_and_nmap_unreachable :
    (∀ r : SubprocOutcome, zone_transfer_nslookup r = none ∨
      ∃ rec recs, zone_transfer_nslookup r = some (rec :: recs)) ∧
    (∀ (env : Env) (servers : List (Option String)),
      ∀ p ∈ (probeLoop env ⟨[], false, []⟩ servers).probes,
        p.2 = Strategy.dnspython ∨ p.2 = Strategy.nslookup) := by
  constructor
  · intro r
    exact conclusive_shapes _ (nslookup_conclusive r)
  · intro env servers p hp
    rcases probeLoop_shape env ⟨[], false, []⟩ servers with h | ⟨s, st1, hb, hf⟩
    · rw [h] at hp
      simp at hp
    · rw [hf] at hp
      rcases probeServer_spec env ⟨[], false, []⟩ s with
        ⟨hc, st2, hb2, hp2⟩ | ⟨hc1, hc2, st2, hb2, hp2⟩
      · injection (hb.symm.trans hb2) with e
        subst e
        rw [hp2] at hp
        simp at hp
        rw [hp]
        exact Or.inl rfl
      · injection (hb.symm.trans hb2) with e
        subst e
        rw [hp2] at hp
        simp at hp
        rcases hp with hp | hp <;> rw [hp]
        · exact Or.inl rfl
        · exact Or.inr rfl

/-- C3: for the three external-tool strategies, a completed invocation with
the tool's failure-marker string in stderr or a non-zero exit code returns
None (definitive failure), and for the library strategy every caught transfer
exception returns None; being total Lean functions, none of them propagates
an exception to the caller. -/
theorem C3_failure_outcomes_yield_none :
    (∀ p : CompletedProcess,
      strContains p.stderr "transfer failed" = true ∨ p.returncode ≠ 0 →
      zone_transfer_nslookup (.completed p) = none) ∧
    (∀ p : CompletedProcess,
      strContains p.stderr "Transfer failed" = true ∨ p.returncode ≠ 0 →
      zone_transfer_dig (.completed p) = none) ∧
    (∀ p : CompletedProcess,
      strContains p.stderr "Transfer failed" = true ∨ p.returncode ≠ 0 →
      zone_transfer_nmap (.completed p) = none) ∧
    (∀ e : XfrError, zone_transfer_dnspython (.err e) = none) := by
  refine ⟨?_, ?_, ?_, fun e => rfl⟩ <;>
    (intro p h
     rcases h with h | h
     · simp [zone_transfer_nslookup, zone_transfer_dig, zone_transfer_nmap, h]
     · simp [zone_transfer_nslookup, zone_transfer_dig, zone_transfer_nmap,
         bne_iff_ne, h])

/-- C4: the library-native AXFR strategy converts each of its caught transfer
errors — transfer protocol error, connection reset, malformed response (form
error), bad response, unexpected responder, timeout, and generic value error
— into None, without the exception propagating. -/
theorem C4_dnspython_catches_transfer_errors :
    zone_transfer_dnspython (.err .transferError) = none ∧
    zone_transfer_dnspython (.err .connectionReset) = none ∧
    zone_transfer_dnspython (.err .formError) = none ∧
    zone_transfer_dnspython (.err .badResponse) = none ∧
    zone_transfer_dnspython (.err .unexpectedSource) = none ∧
    zone_transfer_dnspython (.err .timeout) = none ∧
    zone_transfer_dnspython (.err .valueError) = none :=
  ⟨rfl, rfl, rfl, rfl, rfl, rfl, rfl⟩

/-- C5: the ASN lookup returns exactly the literal placeholder string when
the HTTPS request raises, when the response body is not JSON, or when the
JSON object has no org field; when an org field is present it returns that
field's text. Being a total Lean function, it never propagates an error. -/
theorem C5_asn_lookup_placeholder_or_org :
    (∀ msg, fetch_asn_description (.networkError msg) = "ASN description not available") ∧
    fetch_asn_description .malformedJson = "ASN description not available" ∧
    (∀ fields, fields.find? (fun p => p.1 == "org") = none →
      fetch_asn_description (.json fields) = "ASN description not available") ∧
    (∀ fields q, fields.find? (fun p => p.1 == "org") = some q →
      fetch_asn_description (.json fields) = q.2) := by
  refine ⟨fun _ => rfl, rfl, ?_, ?_⟩
  · intro fields h
    simp [fetch_asn_description, h]
  · intro fields q h
    simp [fetch_asn_description, h]

/-- C6: for a completed run, the ASN table has exactly one row per NS server
whose address resolved (assuming resolved addresses are non-empty strings, as
rendered IP addresses are), whatever the strategy outcomes were — in
particular even though the probe loop broke after the first conclusive
server. -/
theorem C6_asn_row_per_resolved_server (env : Env) (nsNames : List String)
    (servers : List (Option String)) (res : MainResult)
    (h1 : env.nsResolve = .ok nsNames)
    (h2 : mapResolve env.resolveA nsNames = .ok servers)
    (h3 : ∀ a : String, some a ∈ servers → a ≠ "")
    (h4 : main_run env = .ok res) :
    res.asnRows.length = servers.countP Option.isSome := by
  simp only [main_run, h1, h2] at h4
  injection h4 with h4
  subst h4
  rw [runResult_asnRows]
  exact asnTable_length env servers h3

/-- C7: when every NS server of the domain fails address resolution, the run
invokes no transfer strategy (the probe log is empty), the success flag stays
false, and the result table is the single fixed failure row. -/
theorem C7_unresolvable_servers_probe_nothing (env : Env) (nsNames : List String)
    (servers : List (Option String)) (res : MainResult)
    (h1 : env.nsResolve = .ok nsNames)
    (h2 : mapResolve env.resolveA nsNames = .ok servers)
    (h3 : ∀ x ∈ servers, x = (none : Option String))
    (h4 : main_run env = .ok res) :
    res.probes = [] ∧ res.successful = false ∧
    res.resultHeader = "No threats were found. Please try again." ∧
    res.resultRows = [TransferRecord.raw "Transfer failed."] := by
  simp only [main_run, h1, h2] at h4
  injection h4 with h4
  subst h4
  have hloop := probeLoop_all_none env ⟨[], false, []⟩ servers h3
  simp [runResult, hloop]

/-- C8: if the library-native strategy succeeds on the first resolvable
server and returns exactly the record list [("example.com.", "A",
"1.2.3.4")], the success flag is true and the result table contains exactly
one row, the rendering of that triple. -/
theorem C8_library_success_single_row (env : Env) (nsNames : List String)
    (pre rest : List (Option String)) (s : String) (res : MainResult)
    (h1 : env.nsResolve = .ok nsNames)
    (h2 : mapResolve env.resolveA nsNames = .ok (pre ++ some s :: rest))
    (hpre : ∀ x ∈ pre, x = (none : Option String))
    (hx : zone_transfer_dnspython (env.xfrOutcome s) =
      some [TransferRecord.structured "example.com." "A" "1.2.3.4"])
    (h4 : main_run env = .ok res) :
    res.successful = true ∧ res.resultHeader = "Threat successfully found" ∧
    res.resultRows = [TransferRecord.structured "example.com." "A" "1.2.3.4"] := by
  simp only [main_run, h1, h2] at h4
  injection h4 with h4
  subst h4
  have hout : outcomeOf env s .dnspython =
      some [TransferRecord.structured "example.com." "A" "1.2.3.4"] := hx
  have hps : probeServer env ⟨[], false, []⟩ s =
      .broke ⟨[TransferRecord.structured "example.com." "A" "1.2.3.4"], true,
        [(s, .dnspython)]⟩ := by
    simp [probeServer, runStrategy, hout]
  have hloop : probeLoop env ⟨[], false, []⟩ (pre ++ some s :: rest) =
      ⟨[TransferRecord.structured "example.com." "A" "1.2.3.4"], true,
        [(s, .dnspython)]⟩ := by
    rw [probeLoop_skip_pre env ⟨[], false, []⟩ pre (some s :: rest) hpre]
    simp [probeLoop, hps]
  simp [runResult, hloop]

/-- C9: the per-server forward lookup returns the first resolved address on a
successful answer, and the absent value (None) — without raising — on each of
the three expected conditions: no A record, nonexistent name, and lookup
timeout. -/
theorem C9_resolve_first_address_or_absent :
    (∀ first rest, resolve_ns_to_ip (.answers first rest) = .ok (some first)) ∧
    resolve_ns_to_ip .noAnswer = .ok none ∧
    resolve_ns_to_ip .nxdomain = .ok none ∧
    resolve_ns_to_ip .timeout = .ok none :=
  ⟨fun _ _ => rfl, rfl, rfl, rfl⟩

/-- C10: the top-level NS-record resolution in the orchestrator is unguarded:
whenever it raises, the error propagates out of the run unchanged, aborting
it, instead of being recovered. -/
theorem C10_ns_resolution_error_propagates (env : Env) (e : String)
    (h : env.nsResolve = .error e) : main_run env = .error e := by
  simp [main_run, h]

/-- Witness for C1: in `envInconclusive`, the dnspython probe of 9.9.9.9 is a
non-final log entry, and its outcome was indeed inconclusive. -/
theorem C1_witness :
    conclusive (outcomeOf envInconclusive "9.9.9.9" Strategy.dnspython) = false :=
  C1_first_conclusive_outcome_ends_probing envInconclusive [some "9.9.9.9"]
    ("9.9.9.9", Strategy.dnspython) (by decide)

/-- Witness for C2: both conjuncts instantiated at concrete inputs. -/
theorem C2_witness :
    (zone_transfer_nslookup (.completed ⟨"", "", 0⟩) = none ∨
      ∃ rec recs, zone_transfer_nslookup (.completed ⟨"", "", 0⟩) = some (rec :: recs)) ∧
    (("9.9.9.9", Strategy.dnspython).2 = Strategy.dnspython ∨
      ("9.9.9.9", Strategy.dnspython).2 = Strategy.nslookup) :=
  ⟨C2_dig_and_nmap_unreachable.1 (.completed ⟨"", "", 0⟩),
    C2_dig_and_nmap_unreachable.2 envInconclusive [some "9.9.9.9"]
      ("9.9.9.9", Strategy.dnspython) (by decide)⟩

/-- Witness for C3: a non-zero exit code for nslookup and marker strings in
stderr for dig and nmap each yield None. -/
theorem C3_witness :
    zone_transfer_nslookup (.completed ⟨"out", "", 1⟩) = none ∧
    zone_transfer_dig (.completed ⟨"out", "; Transfer failed.", 0⟩) = none ∧
    zone_transfer_nmap (.completed ⟨"out", "Transfer failed", 0⟩) = none :=
  ⟨C3_failure_outcomes_yield_none.1 ⟨"out", "", 1⟩ (Or.inr (by decide)),
    C3_failure_outcomes_yield_none.2.1 ⟨"out", "; Transfer failed.", 0⟩ (Or.inl (by decide)),
    C3_failure_outcomes_yield_none.2.2.1 ⟨"out", "Transfer failed", 0⟩ (Or.inl (by decide))⟩

/-- Witness for C5: a JSON object without an org field yields the
placeholder; one with an org field yields its text. -/
theorem C5_witness :
    fetch_asn_description (.json []) = "ASN description not available" ∧
    fetch_asn_description (.json [("org", "AS64500 Example")]) = "AS64500 Example" :=
  ⟨C5_asn_lookup_placeholder_or_org.2.2.1 [] rfl,
    C5_asn_lookup_placeholder_or_org.2.2.2 [("org", "AS64500 Example")]
      ("org", "AS64500 Example") (by decide)⟩

/-- Witness for C6: three NS servers, all resolved, no transfer succeeded —
the ASN table still has three rows. -/
theorem C6_witness :
    (runResult envResolved3 [some "1.1.1.1", some "2.2.2.2", some "3.3.3.3"]).asnRows.length =
      ([some "1.1.1.1", some "2.2.2.2", some "3.3.3.3"] : List (Option String)).countP
        Option.isSome :=
  C6_asn_row_per_resolved_server envResolved3 ["a.example.", "b.example.", "c.example."]
    [some "1.1.1.1", some "2.2.2.2", some "3.3.3.3"]
    (runResult envResolved3 [some "1.1.1.1", some "2.2.2.2", some "3.3.3.3"])
    rfl rfl
    (by intro a ha; simp at ha; rcases ha with h | h | h <;> (subst h; decide))
    rfl

/-- Witness for C7: one NS server whose address resolution fails — no probes,
failure row shown. -/
theorem C7_witness :
    (runResult envNoResolve [none]).probes = [] ∧
    (runResult envNoResolve [none]).successful = false ∧
    (runResult envNoResolve [none]).resultHeader = "No threats were found. Please try again." ∧
    (runResult envNoResolve [none]).resultRows = [TransferRecord.raw "Transfer failed."] :=
  C7_unresolvable_servers_probe_nothing envNoResolve ["ns1.example."] [none]
    (runResult envNoResolve [none]) rfl rfl (by simp) rfl

/-- Witness for C8: a concrete environment in which the AXFR zone holds
exactly the record (example.com., A, 1.2.3.4). -/
theorem C8_witness :
    (runResult envSuccess [some "5.6.7.8"]).successful = true ∧
    (runResult envSuccess [some "5.6.7.8"]).resultHeader = "Threat successfully found" ∧
    (runResult envSuccess [some "5.6.7.8"]).resultRows =
      [TransferRecord.structured "example.com." "A" "1.2.3.4"] :=
  C8_library_success_single_row envSuccess ["ns1.example."] [] [] "5.6.7.8"
    (runResult envSuccess [some "5.6.7.8"]) rfl rfl (by simp) rfl rfl

/-- Witness for C10: a concrete run whose NS resolution raises aborts with
that error. -/
theorem C10_witness :
    main_run envFail = .error "The DNS query name does not exist" :=
  C10_ns_resolution_error_propagates envFail "The DNS query name does not exist" rfl
